import Mathlib

/-!
Verification of the Celestial-Orbit-Visualizer repository.

The repository consists of two Python scripts (`simulator.py` and a Dash
variant) that sample a two-body Keplerian orbit over one period and build an
animated Plotly figure.  Both delegate the astrodynamics (orbit construction,
period, propagation) to the external poliastro library; the scripts own the
sampling layout (`np.linspace(0, period, num=100)`), the list comprehension
pairing each time with a propagated position, and the figure/frame assembly.

The repository code is embedded directly; the library primitives (period,
Kepler solve, perifocal-to-inertial rotation) and the `sample` operation with
its input validation are modelled from the spec, as marked on each definition.
Real arithmetic replaces floating point throughout.
-/

open Real

/-- A 3-D Cartesian position vector (kilometres). -/
abbrev Vec3 : Type := ℝ × ℝ × ℝ

/-- Squared Euclidean norm of a 3-D vector. -/
def normSq (v : Vec3) : ℝ := v.1 ^ 2 + v.2.1 ^ 2 + v.2.2 ^ 2

/-- Euclidean magnitude of a 3-D vector. -/
noncomputable def magnitude (v : Vec3) : ℝ := Real.sqrt (normSq v)

/-- Classical orbital elements, as passed to `Orbit.from_classical` in both
scripts: semi-major axis `a` (km), eccentricity `ecc`, inclination `inc`,
RAAN `raan`, argument of perigee `argp`, true anomaly `nu` (angles in
degrees, as the scripts pass them). -/
structure OrbitalElements where
  a : ℝ
  ecc : ℝ
  inc : ℝ
  raan : ℝ
  argp : ℝ
  nu : ℝ

/-- Modelled from the spec: the central body handed to the sampler.  §6 and
§8 fix the units (km, km³/s²); `R` is the body radius, `μ` the gravitational
parameter. -/
structure Body where
  R : ℝ
  μ : ℝ

/-- Modelled from the spec: the Earth constants used by both scripts via the
external library (`poliastro.bodies.Earth`); §8 gives the radius 6378 km, and
μ is Earth's standard gravitational parameter in km³/s². -/
noncomputable def Earth : Body := ⟨6378, 398600.4418⟩

/-- `np.linspace(start, stop, num)` with `endpoint=True`, as used at
`simulator.py:24` and in `update_orbit` (part_000:101): `num` evenly spaced
values from `start` to `stop`, both endpoints included. -/
noncomputable def linspace (start stop : ℝ) (num : ℕ) : List ℝ :=
  (List.range num).map
    (fun i : ℕ => start + (stop - start) * (i : ℝ) / ((num : ℝ) - 1))

/-- Modelled from the spec: the external library's mean motion
n = √(μ/a³), from which it derives the orbital period. -/
noncomputable def meanMotion (μ a : ℝ) : ℝ := Real.sqrt (μ / a ^ 3)

/-- Modelled from the spec: `orbit.period` (used at `simulator.py:23` and
part_000:100); the library computes the period as 2π divided by the mean
motion, which §4.1 states in the equivalent Kepler's-third-law form
2π·√(a³/μ). -/
noncomputable def period (μ a : ℝ) : ℝ := 2 * Real.pi / meanMotion μ a

/-- Rotation about the z-axis by angle `θ` (radians). -/
noncomputable def rotZ (θ : ℝ) (v : Vec3) : Vec3 :=
  (Real.cos θ * v.1 - Real.sin θ * v.2.1,
   Real.sin θ * v.1 + Real.cos θ * v.2.1,
   v.2.2)

/-- Rotation about the x-axis by angle `θ` (radians). -/
noncomputable def rotX (θ : ℝ) (v : Vec3) : Vec3 :=
  (v.1,
   Real.cos θ * v.2.1 - Real.sin θ * v.2.2,
   Real.sin θ * v.2.1 + Real.cos θ * v.2.2)

/-- Degrees to radians. -/
noncomputable def deg2rad (x : ℝ) : ℝ := x * Real.pi / 180

/-- Modelled from the spec (§4.1 step 3): the perifocal position at
eccentric anomaly `E` on an ellipse with semi-major axis `a` and
eccentricity `e`: (a(cos E − e), a√(1−e²)·sin E, 0). -/
noncomputable def perifocal (a e E : ℝ) : Vec3 :=
  (a * (Real.cos E - e), a * Real.sqrt (1 - e ^ 2) * Real.sin E, 0)

/-- Modelled from the spec (§4.1 step 3): the body-centred inertial position
of the satellite at eccentric anomaly `E`, obtained by rotating the perifocal
position into the inertial frame using argument of perigee, inclination and
RAAN. -/
noncomputable def position (elems : OrbitalElements) (E : ℝ) : Vec3 :=
  rotZ (deg2rad elems.raan)
    (rotX (deg2rad elems.inc)
      (rotZ (deg2rad elems.argp) (perifocal elems.a elems.ecc E)))

/-- The sampled trajectory: the list comprehension
`[orbit.propagate(t).r for t in time_span]` over
`np.linspace(0, period, num)` (simulator.py:24-25, part_000:101-102), paired
with the time offsets as §4.1 step 4 returns them.  `solveE` stands for the
external library's Kepler-equation solve for this orbit, mapping a time
offset to the eccentric anomaly reached at that time (a numerical
root-finder inside the library, kept abstract per §9). -/
noncomputable def trajectory (solveE : ℝ → ℝ) (μ : ℝ)
    (elems : OrbitalElements) (num : ℕ) : List (ℝ × Vec3) :=
  (linspace 0 (period μ elems.a) num).map
    (fun t => (t, position elems (solveE t)))

/-- Modelled from the spec (§4.1, §7): the sampler's single error category. -/
inductive SampleError where
  | InvalidElements
deriving Repr, DecidableEq

/-- Modelled from the spec (§4.1 input constraints): semi-major axis must
exceed the body radius, eccentricity must lie in [0,1), and the sample count
must be at least 2. -/
def isValid (R : ℝ) (elems : OrbitalElements) (num : ℕ) : Prop :=
  R < elems.a ∧ 0 ≤ elems.ecc ∧ elems.ecc < 1 ∧ 2 ≤ num

open Classical in
/-- Modelled from the spec (§4.1): `sample(elements, sample_count)` — either
the complete trajectory, or `InvalidElements` with no partial result. -/
noncomputable def sample (solveE : ℝ → ℝ) (body : Body)
    (elems : OrbitalElements) (num : ℕ) : Except SampleError (List (ℝ × Vec3)) :=
  if isValid body.R elems num then
    Except.ok (trajectory solveE body.μ elems num)
  else
    Except.error SampleError.InvalidElements

/-- The slice of a Plotly `Scatter3d` trace that the scripts set: the
coordinate lists, the mode string, the marker size when one is given, and
the trace name when one is given (line width/colour styling is not
modelled). -/
structure Scatter3d where
  x : List ℝ
  y : List ℝ
  z : List ℝ
  mode : String
  markerSize : Option ℝ
  name : Option String

instance : Inhabited Scatter3d := ⟨⟨[], [], [], "", none, none⟩⟩

/-- A Plotly animation frame: its trace data and its name. -/
structure Frame where
  data : List Scatter3d
  name : String

instance : Inhabited Frame := ⟨⟨[], ""⟩⟩

/-- A Plotly figure: its trace data and its animation frames. -/
structure Figure where
  data : List Scatter3d
  frames : List Frame

/-- The coordinate content of a trace, forgetting styling. -/
def coords (t : Scatter3d) : List ℝ × List ℝ × List ℝ := (t.x, t.y, t.z)

namespace DashSim

/-- part_000:15 — `default_eccentricity = 0.1`. -/
noncomputable def default_eccentricity : ℝ := 0.1

/-- part_000:16 — `default_inclination = 45` (degrees). -/
noncomputable def default_inclination : ℝ := 45

/-- part_000:17 — `default_sma = 7078` (km). -/
noncomputable def default_sma : ℝ := 7078

/-- part_000:20-29 — `create_orbit(sma, ecc, inc)` builds the orbit from
classical elements with RAAN, argument of perigee and true anomaly all 0°. -/
noncomputable def create_orbit (sma ecc inc : ℝ) : OrbitalElements :=
  ⟨sma, ecc, inc, 0, 0, 0⟩

/-- part_000:97 — the orbit constructed by `update_orbit` from the
semi-major-axis slider value and the module-level defaults. -/
noncomputable def update_orbit_elems (sma : ℝ) : OrbitalElements :=
  create_orbit sma default_eccentricity default_inclination

/-- part_000:100-102 — the propagated positions of `update_orbit`:
`[orbit.propagate(t).r for t in np.linspace(0, period, num=100)]`. -/
noncomputable def positionsOf (solveE : ℝ → ℝ) (sma : ℝ) : List Vec3 :=
  (linspace 0 (period Earth.μ (update_orbit_elems sma).a) 100).map
    (fun t => position (update_orbit_elems sma) (solveE t))

/-- part_000:103 — `x_vals` of `update_orbit`. -/
noncomputable def xsOf (solveE : ℝ → ℝ) (sma : ℝ) : List ℝ :=
  (positionsOf solveE sma).map (fun p => p.1)

/-- part_000:103 — `y_vals` of `update_orbit`. -/
noncomputable def ysOf (solveE : ℝ → ℝ) (sma : ℝ) : List ℝ :=
  (positionsOf solveE sma).map (fun p => p.2.1)

/-- part_000:103 — `z_vals` of `update_orbit`. -/
noncomputable def zsOf (solveE : ℝ → ℝ) (sma : ℝ) : List ℝ :=
  (positionsOf solveE sma).map (fun p => p.2.2)

/-- part_000:95-180 — the Dash callback `update_orbit(sma, earth_size,
satellite_size)`: recompute the trajectory for the current slider value and
rebuild the figure — orbit path trace, Earth marker, satellite marker at the
first sample, and one animation frame per sample pinning the satellite to
that sample (frames carry no styling in this script).  `solveE` is the
library's Kepler solve, as in `trajectory`. -/
noncomputable def update_orbit (solveE : ℝ → ℝ)
    (sma earth_size satellite_size : ℝ) : Figure :=
  let xs := xsOf solveE sma
  let ys := ysOf solveE sma
  let zs := zsOf solveE sma
  { data :=
      [⟨xs, ys, zs, "lines", none, some "Orbit Path"⟩,
       ⟨[0], [0], [0], "markers", some earth_size, some "Earth"⟩,
       ⟨[xs.headI], [ys.headI], [zs.headI], "markers", some satellite_size,
        some "Satellite"⟩],
    frames :=
      (List.range xs.length).map (fun i =>
        ⟨[⟨xs, ys, zs, "lines", none, none⟩,
          ⟨[0], [0], [0], "markers", none, none⟩,
          ⟨[xs.getD i 0], [ys.getD i 0], [zs.getD i 0], "markers", none,
           none⟩],
         "frame_" ++ toString i⟩) }

end DashSim

namespace Simulator

/-- simulator.py:9 — `alt_perigee = 700` (km). -/
noncomputable def alt_perigee : ℝ := 700

/-- simulator.py:10 — `eccentricity = 0.1`. -/
noncomputable def eccentricity : ℝ := 0.1

/-- simulator.py:11 — `inclination = 45` (degrees). -/
noncomputable def inclination : ℝ := 45

/-- simulator.py:12-20 — the module-level orbit:
`Orbit.from_classical(Earth, a=Earth.R + alt_perigee, ecc, inc, raan=0,
argp=0, nu=0)`. -/
noncomputable def orbitElems : OrbitalElements :=
  ⟨Earth.R + alt_perigee, eccentricity, inclination, 0, 0, 0⟩

/-- simulator.py:34 — `earth_size = 15`. -/
noncomputable def earth_size : ℝ := 15

/-- simulator.py:35 — `satellite_size = 6`. -/
noncomputable def satellite_size : ℝ := 6

/-- simulator.py:22-25 — the propagated positions over one period,
100 samples. -/
noncomputable def positionsOf (solveE : ℝ → ℝ) : List Vec3 :=
  (linspace 0 (period Earth.μ orbitElems.a) 100).map
    (fun t => position orbitElems (solveE t))

/-- simulator.py:28 — `x_vals`. -/
noncomputable def xsOf (solveE : ℝ → ℝ) : List ℝ :=
  (positionsOf solveE).map (fun p => p.1)

/-- simulator.py:28 — `y_vals`. -/
noncomputable def ysOf (solveE : ℝ → ℝ) : List ℝ :=
  (positionsOf solveE).map (fun p => p.2.1)

/-- simulator.py:28 — `z_vals`. -/
noncomputable def zsOf (solveE : ℝ → ℝ) : List ℝ :=
  (positionsOf solveE).map (fun p => p.2.2)

/-- simulator.py:31-84 — the module-level figure: orbit path trace, Earth
marker, satellite marker at the first sample, and one animation frame per
sample (frames in this script repeat the marker sizes). -/
noncomputable def fig (solveE : ℝ → ℝ) : Figure :=
  let xs := xsOf solveE
  let ys := ysOf solveE
  let zs := zsOf solveE
  { data :=
      [⟨xs, ys, zs, "lines", none, some "Orbit Path"⟩,
       ⟨[0], [0], [0], "markers", some earth_size, some "Earth"⟩,
       ⟨[xs.headI], [ys.headI], [zs.headI], "markers", some satellite_size,
        some "Satellite"⟩],
    frames :=
      (List.range xs.length).map (fun i =>
        ⟨[⟨xs, ys, zs, "lines", none, none⟩,
          ⟨[0], [0], [0], "markers", some earth_size, none⟩,
          ⟨[xs.getD i 0], [ys.getD i 0], [zs.getD i 0], "markers",
           some satellite_size, none⟩],
         "Frame " ++ toString i⟩) }

end Simulator

/-! ### Helper lemmas -/

theorem linspace_length (s t : ℝ) (n : ℕ) : (linspace s t n).length = n := by
  rw [linspace, List.length_map, List.length_range]

theorem linspace_head? (s t : ℝ) {n : ℕ} (h : n ≠ 0) :
    (linspace s t n).head? = some s := by
  obtain ⟨m, rfl⟩ := Nat.exists_eq_succ_of_ne_zero h
  simp [linspace, List.range_succ_eq_map]

theorem linspace_getLast? (s t : ℝ) {n : ℕ} (h : 2 ≤ n) :
    (linspace s t n).getLast? = some t := by
  obtain ⟨m, rfl⟩ : ∃ m, n = m + 1 := ⟨n - 1, by omega⟩
  have hm : ((m : ℝ)) ≠ 0 := Nat.cast_ne_zero.mpr (by omega)
  rw [linspace, List.range_succ, List.map_append]
  simp only [List.map_cons, List.map_nil]
  rw [List.getLast?_concat]
  congr 1
  push_cast
  field_simp

theorem linspace_pairwise (s t : ℝ) {n : ℕ} (hst : s < t) (h : 2 ≤ n) :
    (linspace s t n).Pairwise (· < ·) := by
  rw [linspace]
  refine List.Pairwise.map _ ?_ (List.pairwise_lt_range n)
  intro a b hab
  have h2 : (2 : ℝ) ≤ (n : ℝ) := by exact_mod_cast h
  have hpos : (0 : ℝ) < (t - s) / ((n : ℝ) - 1) :=
    div_pos (by linarith) (by linarith)
  have hcast : (a : ℝ) < (b : ℝ) := by exact_mod_cast hab
  have key : (a : ℝ) * ((t - s) / ((n : ℝ) - 1)) <
      (b : ℝ) * ((t - s) / ((n : ℝ) - 1)) :=
    mul_lt_mul_of_pos_right hcast hpos
  have e1 : s + (t - s) * (a : ℝ) / ((n : ℝ) - 1) =
      s + (a : ℝ) * ((t - s) / ((n : ℝ) - 1)) := by ring
  have e2 : s + (t - s) * (b : ℝ) / ((n : ℝ) - 1) =
      s + (b : ℝ) * ((t - s) / ((n : ℝ) - 1)) := by ring
  rw [e1, e2]
  linarith

theorem linspace_chain' (s t : ℝ) {n : ℕ} (h : 2 ≤ n) :
    (linspace s t n).Chain' (fun x y => y - x = (t - s) / ((n : ℝ) - 1)) := by
  rw [linspace, List.chain'_map]
  obtain ⟨m, rfl⟩ : ∃ m, n = m + 1 := ⟨n - 1, by omega⟩
  rw [List.chain'_range_succ]
  intro i hi
  push_cast
  ring

theorem trajectory_times (solveE : ℝ → ℝ) (μ : ℝ) (elems : OrbitalElements)
    (num : ℕ) :
    (trajectory solveE μ elems num).map Prod.fst =
      linspace 0 (period μ elems.a) num := by
  simp [trajectory, List.map_map, Function.comp_def]

theorem trajectory_length (solveE : ℝ → ℝ) (μ : ℝ) (elems : OrbitalElements)
    (num : ℕ) : (trajectory solveE μ elems num).length = num := by
  rw [trajectory, List.length_map, linspace_length]

theorem meanMotion_pos {μ a : ℝ} (hμ : 0 < μ) (ha : 0 < a) :
    0 < meanMotion μ a :=
  Real.sqrt_pos.mpr (div_pos hμ (by positivity))

theorem period_pos {μ a : ℝ} (hμ : 0 < μ) (ha : 0 < a) : 0 < period μ a :=
  div_pos (by positivity) (meanMotion_pos hμ ha)

theorem period_eq_sqrt (μ a : ℝ) :
    period μ a = 2 * Real.pi * Real.sqrt (a ^ 3 / μ) := by
  rw [period, meanMotion]
  rw [show μ / a ^ 3 = (a ^ 3 / μ)⁻¹ by field_simp]
  rw [Real.sqrt_inv, div_eq_mul_inv, inv_inv]

theorem normSq_rotZ (θ : ℝ) (v : Vec3) : normSq (rotZ θ v) = normSq v := by
  simp only [normSq, rotZ]
  linear_combination (v.1 ^ 2 + v.2.1 ^ 2) * Real.sin_sq_add_cos_sq θ

theorem normSq_rotX (θ : ℝ) (v : Vec3) : normSq (rotX θ v) = normSq v := by
  simp only [normSq, rotX]
  linear_combination (v.2.1 ^ 2 + v.2.2 ^ 2) * Real.sin_sq_add_cos_sq θ

theorem normSq_position (elems : OrbitalElements) (E : ℝ) :
    normSq (position elems E) = normSq (perifocal elems.a elems.ecc E) := by
  rw [position, normSq_rotZ, normSq_rotX, normSq_rotZ]

theorem normSq_perifocal_circular (a E : ℝ) :
    normSq (perifocal a 0 E) = a ^ 2 := by
  simp only [perifocal, normSq]
  rw [show (1 : ℝ) - 0 ^ 2 = 1 by norm_num, Real.sqrt_one]
  linear_combination a ^ 2 * Real.sin_sq_add_cos_sq E

theorem headI_map_of_ne_nil {α β : Type} [Inhabited α] [Inhabited β]
    (f : α → β) {l : List α} (h : l ≠ []) : (l.map f).headI = f l.headI := by
  cases l with
  | nil => exact absurd rfl h
  | cons a t => rfl

theorem headI_eq_of_head? {α : Type} [Inhabited α] {l : List α} {a : α}
    (h : l.head? = some a) : l.headI = a := by
  cases l with
  | nil => simp at h
  | cons b t => simpa using h

theorem getD_map_range {α : Type} (f : ℕ → α) {n i : ℕ} (h : i < n) (d : α) :
    (((List.range n).map f).getD i d) = f i := by
  rw [List.getD_eq_getElem?_getD, List.getElem?_map, List.getElem?_range h]
  rfl

/-- The concrete scenario of spec §8: sma 7078 km, ecc 0.1, inc 45°,
RAAN/argp/nu 0°. -/
noncomputable def spec8Elems : OrbitalElements := ⟨7078, 0.1, 45, 0, 0, 0⟩

/-- The spec §8 scenario at eccentricity 0 (circular boundary case). -/
noncomputable def circElems : OrbitalElements := ⟨7078, 0, 45, 0, 0, 0⟩

/-- The invalid input named by the spec: eccentricity 1.2. -/
noncomputable def hyperElems : OrbitalElements := ⟨7078, 1.2, 45, 0, 0, 0⟩

/-! ### Claim theorems -/

/-- C1: for every valid set of orbital elements and sample count, the sampler
succeeds with exactly `num` (time offset, position) pairs whose time offsets
are evenly spaced (consecutive gaps all `period/(num−1)`), strictly
increasing, with first offset 0 and last offset the orbital period. -/
theorem C1_sample_count_and_even_spacing (solveE : ℝ → ℝ) (body : Body)
    (elems : OrbitalElements) (num : ℕ) (hval : isValid body.R elems num)
    (hμ : 0 < body.μ) (hR : 0 ≤ body.R) :
    sample solveE body elems num =
      Except.ok (trajectory solveE body.μ elems num) ∧
    (trajectory solveE body.μ elems num).length = num ∧
    ((trajectory solveE body.μ elems num).map Prod.fst).head? = some 0 ∧
    ((trajectory solveE body.μ elems num).map Prod.fst).getLast? =
      some (period body.μ elems.a) ∧
    ((trajectory solveE body.μ elems num).map Prod.fst).Pairwise (· < ·) ∧
    ((trajectory solveE body.μ elems num).map Prod.fst).Chain'
      (fun x y => y - x = period body.μ elems.a / ((num : ℝ) - 1)) := by
  obtain ⟨haR, _hecc0, _hecc1, hnum⟩ := hval
  have ha : 0 < elems.a := lt_of_le_of_lt hR haR
  have hT : 0 < period body.μ elems.a := period_pos hμ ha
  have hnum0 : num ≠ 0 := by omega
  refine ⟨?_, trajectory_length _ _ _ _, ?_, ?_, ?_, ?_⟩
  · rw [sample, if_pos ⟨haR, _hecc0, _hecc1, hnum⟩]
  · rw [trajectory_times, linspace_head? _ _ hnum0]
  · rw [trajectory_times, linspace_getLast? _ _ hnum]
  · rw [trajectory_times]
    exact linspace_pairwise _ _ hT hnum
  · rw [trajectory_times]
    have := linspace_chain' 0 (period body.μ elems.a) hnum
    simpa using this

/-- C1 witness: the spec §8 scenario with 100 samples. -/
theorem C1_witness :
    sample id Earth spec8Elems 100 =
      Except.ok (trajectory id Earth.μ spec8Elems 100) ∧
    (trajectory id Earth.μ spec8Elems 100).length = 100 ∧
    ((trajectory id Earth.μ spec8Elems 100).map Prod.fst).head? = some 0 ∧
    ((trajectory id Earth.μ spec8Elems 100).map Prod.fst).getLast? =
      some (period Earth.μ spec8Elems.a) ∧
    ((trajectory id Earth.μ spec8Elems 100).map Prod.fst).Pairwise (· < ·) ∧
    ((trajectory id Earth.μ spec8Elems 100).map Prod.fst).Chain'
      (fun x y => y - x = period Earth.μ spec8Elems.a / ((100 : ℝ) - 1)) :=
  C1_sample_count_and_even_spacing id Earth spec8Elems 100
    (by refine ⟨?_, ?_, ?_, ?_⟩ <;> norm_num [Earth, spec8Elems])
    (by norm_num [Earth]) (by norm_num [Earth])

/-- C2: any input violating the constraints (a ≤ R, ecc outside [0,1), or
sample count < 2) makes the sampler fail with `InvalidElements` and return
no trajectory. -/
theorem C2_invalid_input_rejected (solveE : ℝ → ℝ) (body : Body)
    (elems : OrbitalElements) (num : ℕ) (h : ¬ isValid body.R elems num) :
    sample solveE body elems num =
      Except.error SampleError.InvalidElements := by
  rw [sample, if_neg h]

/-- C2 witness: eccentricity 1.2 is rejected. -/
theorem C2_witness :
    sample id Earth hyperElems 100 =
      Except.error SampleError.InvalidElements :=
  C2_invalid_input_rejected id Earth hyperElems 100
    (by
      intro hv
      have := hv.2.2.1
      norm_num [hyperElems] at this)

/-- C3: the orbital period used to span the samples is 2π·√(a³/μ); in
particular the sampled time offsets end at that value. -/
theorem C3_period_keplers_third_law (solveE : ℝ → ℝ) (μ : ℝ)
    (elems : OrbitalElements) (num : ℕ) (hnum : 2 ≤ num) :
    period μ elems.a = 2 * Real.pi * Real.sqrt (elems.a ^ 3 / μ) ∧
    ((trajectory solveE μ elems num).map Prod.fst).getLast? =
      some (2 * Real.pi * Real.sqrt (elems.a ^ 3 / μ)) := by
  refine ⟨period_eq_sqrt μ elems.a, ?_⟩
  rw [trajectory_times, linspace_getLast? _ _ hnum, period_eq_sqrt]

/-- C3 witness: the spec §8 scenario. -/
theorem C3_witness :
    period Earth.μ spec8Elems.a =
      2 * Real.pi * Real.sqrt (spec8Elems.a ^ 3 / Earth.μ) ∧
    ((trajectory id Earth.μ spec8Elems 100).map Prod.fst).getLast? =
      some (2 * Real.pi * Real.sqrt (spec8Elems.a ^ 3 / Earth.μ)) :=
  C3_period_keplers_third_law id Earth.μ spec8Elems 100 (by norm_num)

/-- C4: the trajectory computation is a deterministic pure function of the
elements and the sample count: two invocations with identical inputs yield
identical trajectories, both at the `trajectory` level and through
`sample`. -/
theorem C4_deterministic (solveE : ℝ → ℝ) (body : Body)
    (e₁ e₂ : OrbitalElements) (n₁ n₂ : ℕ) (he : e₁ = e₂) (hn : n₁ = n₂) :
    trajectory solveE body.μ e₁ n₁ = trajectory solveE body.μ e₂ n₂ ∧
    sample solveE body e₁ n₁ = sample solveE body e₂ n₂ := by
  subst he; subst hn; exact ⟨rfl, rfl⟩

/-- C4 witness: two identical invocations on the spec §8 scenario. -/
theorem C4_witness :
    trajectory id Earth.μ spec8Elems 100 = trajectory id Earth.μ spec8Elems 100 ∧
    sample id Earth spec8Elems 100 = sample id Earth spec8Elems 100 :=
  C4_deterministic id Earth spec8Elems spec8Elems 100 100 rfl rfl

/-- C5: the Earth-size and satellite-size slider values (DisplayState) do not
influence the computed trajectory: two update-callback invocations with the
same semi-major axis but different sizes produce identical animation frames
and identical trace coordinates. -/
theorem C5_display_state_independent (solveE : ℝ → ℝ)
    (sma es ss es' ss' : ℝ) :
    (DashSim.update_orbit solveE sma es ss).frames =
      (DashSim.update_orbit solveE sma es' ss').frames ∧
    (DashSim.update_orbit solveE sma es ss).data.map coords =
      (DashSim.update_orbit solveE sma es' ss').data.map coords :=
  ⟨rfl, rfl⟩

/-- C7: for eccentricity 0 every position the sampler returns has magnitude
equal to the semi-major axis. -/
theorem C7_circular_orbit_radius (solveE : ℝ → ℝ) (μ : ℝ)
    (elems : OrbitalElements) (num : ℕ) (hecc : elems.ecc = 0)
    (ha : 0 ≤ elems.a) :
    (trajectory solveE μ elems num).Forall
      (fun p => magnitude p.2 = elems.a) := by
  rw [List.forall_iff_forall_mem]
  intro p hp
  rw [trajectory] at hp
  obtain ⟨t, _ht, rfl⟩ := List.mem_map.mp hp
  show magnitude (position elems (solveE t)) = elems.a
  rw [magnitude, normSq_position, hecc, normSq_perifocal_circular,
    Real.sqrt_sq ha]

/-- C7 witness: the circular variant of the spec §8 scenario. -/
theorem C7_witness :
    (trajectory id Earth.μ circElems 100).Forall
      (fun p => magnitude p.2 = circElems.a) :=
  C7_circular_orbit_radius id Earth.μ circElems 100 rfl
    (by norm_num [circElems])

/-- C8: with the gravitational parameter fixed, doubling the semi-major axis
multiplies the period by 2^1.5. -/
theorem C8_period_scaling (μ a : ℝ) (hμ : 0 < μ) (ha : 0 < a) :
    period μ (2 * a) = 2 ^ ((3 : ℝ) / 2) * period μ a := by
  rw [period_eq_sqrt μ (2 * a), period_eq_sqrt μ a]
  have h8 : ((2 : ℝ) * a) ^ 3 / μ = 8 * (a ^ 3 / μ) := by ring
  rw [h8, Real.sqrt_mul (by norm_num : (0 : ℝ) ≤ 8)]
  have h2 : (2 : ℝ) ^ ((3 : ℝ) / 2) = Real.sqrt 8 := by
    rw [show (3 : ℝ) / 2 = (3 : ℝ) * (1 / 2) by ring,
      Real.rpow_mul (by norm_num : (0 : ℝ) ≤ 2)]
    rw [show ((2 : ℝ) ^ (3 : ℝ)) = 8 by
      rw [show (3 : ℝ) = ((3 : ℕ) : ℝ) by norm_num, Real.rpow_natCast]
      norm_num]
    rw [Real.sqrt_eq_rpow]
  rw [h2]
  ring

/-- C8 witness: doubling the spec §8 semi-major axis. -/
theorem C8_witness :
    period Earth.μ (2 * 7078) = 2 ^ ((3 : ℝ) / 2) * period Earth.μ 7078 :=
  C8_period_scaling Earth.μ 7078 (by norm_num [Earth]) (by norm_num)

/-- C9: the Dash callback always constructs the orbit with eccentricity 0.1,
inclination 45°, and RAAN, argument of perigee and true anomaly 0°; only the
semi-major axis follows the slider. -/
theorem C9_fixed_default_elements (sma : ℝ) :
    (DashSim.update_orbit_elems sma).a = sma ∧
    (DashSim.update_orbit_elems sma).ecc = 0.1 ∧
    (DashSim.update_orbit_elems sma).inc = 45 ∧
    (DashSim.update_orbit_elems sma).raan = 0 ∧
    (DashSim.update_orbit_elems sma).argp = 0 ∧
    (DashSim.update_orbit_elems sma).nu = 0 :=
  ⟨rfl, rfl, rfl, rfl, rfl, rfl⟩

/-- C6: both figures contain one animation frame per sampled position; frame
`i` consists of the full path trace and the central-body marker — identical
in every frame — plus the satellite marker pinned to the `i`-th sampled
position. -/
theorem C6_one_frame_per_sample (solveE : ℝ → ℝ) (sma es ss : ℝ) :
    ((DashSim.update_orbit solveE sma es ss).frames.length =
        (DashSim.positionsOf solveE sma).length ∧
      ∀ i, i < (DashSim.positionsOf solveE sma).length →
        (DashSim.update_orbit solveE sma es ss).frames.getD i default =
          ⟨[⟨DashSim.xsOf solveE sma, DashSim.ysOf solveE sma,
             DashSim.zsOf solveE sma, "lines", none, none⟩,
            ⟨[0], [0], [0], "markers", none, none⟩,
            ⟨[(DashSim.xsOf solveE sma).getD i 0],
             [(DashSim.ysOf solveE sma).getD i 0],
             [(DashSim.zsOf solveE sma).getD i 0], "markers", none, none⟩],
           "frame_" ++ toString i⟩) ∧
    ((Simulator.fig solveE).frames.length =
        (Simulator.positionsOf solveE).length ∧
      ∀ i, i < (Simulator.positionsOf solveE).length →
        (Simulator.fig solveE).frames.getD i default =
          ⟨[⟨Simulator.xsOf solveE, Simulator.ysOf solveE,
             Simulator.zsOf solveE, "lines", none, none⟩,
            ⟨[0], [0], [0], "markers", some Simulator.earth_size, none⟩,
            ⟨[(Simulator.xsOf solveE).getD i 0],
             [(Simulator.ysOf solveE).getD i 0],
             [(Simulator.zsOf solveE).getD i 0], "markers",
             some Simulator.satellite_size, none⟩],
           "Frame " ++ toString i⟩) := by
  have hlen : (DashSim.xsOf solveE sma).length =
      (DashSim.positionsOf solveE sma).length := List.length_map _ _
  have hlen' : (Simulator.xsOf solveE).length =
      (Simulator.positionsOf solveE).length := List.length_map _ _
  refine ⟨⟨?_, ?_⟩, ?_, ?_⟩
  · simp only [DashSim.update_orbit, List.length_map, List.length_range]
    exact hlen
  · intro i hi
    simp only [DashSim.update_orbit]
    rw [getD_map_range _ (by omega : i < (DashSim.xsOf solveE sma).length)]
  · simp only [Simulator.fig, List.length_map, List.length_range]
    exact hlen'
  · intro i hi
    simp only [Simulator.fig]
    rw [getD_map_range _ (by omega : i < (Simulator.xsOf solveE).length)]

/-- C6 witness: frame 0 of the Dash figure for the default slider values. -/
theorem C6_witness :
    (DashSim.update_orbit id 7078 15 6).frames.getD 0 default =
      ⟨[⟨DashSim.xsOf id 7078, DashSim.ysOf id 7078, DashSim.zsOf id 7078,
         "lines", none, none⟩,
        ⟨[0], [0], [0], "markers", none, none⟩,
        ⟨[(DashSim.xsOf id 7078).getD 0 0], [(DashSim.ysOf id 7078).getD 0 0],
         [(DashSim.zsOf id 7078).getD 0 0], "markers", none, none⟩],
       "frame_" ++ toString 0⟩ :=
  (C6_one_frame_per_sample id 7078 15 6).1.2 0
    (by
      rw [DashSim.positionsOf, List.length_map, linspace_length]
      norm_num)

/-- C10: in the initially rendered figure of each script, the satellite
marker sits exactly at the first sampled trajectory position — the sample
taken at time offset 0. -/
theorem C10_initial_marker_at_first_sample (solveE : ℝ → ℝ)
    (sma es ss : ℝ) :
    coords ((DashSim.update_orbit solveE sma es ss).data.getD 2 default) =
      ([((DashSim.positionsOf solveE sma).headI).1],
       [((DashSim.positionsOf solveE sma).headI).2.1],
       [((DashSim.positionsOf solveE sma).headI).2.2]) ∧
    (trajectory solveE Earth.μ (DashSim.update_orbit_elems sma) 100).head? =
      some (0, (DashSim.positionsOf solveE sma).headI) ∧
    coords ((Simulator.fig solveE).data.getD 2 default) =
      ([((Simulator.positionsOf solveE).headI).1],
       [((Simulator.positionsOf solveE).headI).2.1],
       [((Simulator.positionsOf solveE).headI).2.2]) ∧
    (trajectory solveE Earth.μ Simulator.orbitElems 100).head? =
      some (0, (Simulator.positionsOf solveE).headI) := by
  have hne : ∀ (s t : ℝ), linspace s t 100 ≠ [] := by
    intro s t
    have : (linspace s t 100).length = 100 := linspace_length s t 100
    intro hnil
    rw [hnil] at this
    simp at this
  have hh : ∀ (s t : ℝ), (linspace s t 100).headI = s := by
    intro s t
    exact headI_eq_of_head? (linspace_head? s t (by norm_num))
  refine ⟨?_, ?_, ?_, ?_⟩
  · simp only [DashSim.update_orbit, coords, List.getD_eq_getElem?_getD]
    rw [DashSim.xsOf, DashSim.ysOf, DashSim.zsOf]
    have hpne : DashSim.positionsOf solveE sma ≠ [] := by
      rw [DashSim.positionsOf]
      intro hnil
      exact hne _ _ (List.map_eq_nil_iff.mp hnil)
    rw [headI_map_of_ne_nil _ hpne, headI_map_of_ne_nil _ hpne,
      headI_map_of_ne_nil _ hpne]
    rfl
  · rw [trajectory, DashSim.positionsOf]
    rw [List.head?_map, linspace_head? _ _ (by norm_num : (100:ℕ) ≠ 0)]
    rw [headI_map_of_ne_nil _ (hne _ _), hh]
    rfl
  · simp only [Simulator.fig, coords, List.getD_eq_getElem?_getD]
    rw [Simulator.xsOf, Simulator.ysOf, Simulator.zsOf]
    have hpne : Simulator.positionsOf solveE ≠ [] := by
      rw [Simulator.positionsOf]
      intro hnil
      exact hne _ _ (List.map_eq_nil_iff.mp hnil)
    rw [headI_map_of_ne_nil _ hpne, headI_map_of_ne_nil _ hpne,
      headI_map_of_ne_nil _ hpne]
    rfl
  · rw [trajectory, Simulator.positionsOf]
    rw [List.head?_map, linspace_head? _ _ (by norm_num : (100:ℕ) ≠ 0)]
    rw [headI_map_of_ne_nil _ (hne _ _), hh]
    rfl
